import Mathlib

/-!
Verification of `crates/llama_cpp/src/session/params.rs`: the session
parameter record, its default construction, and its conversion into the
native `llama_context_params` block.

Modelling conventions:
* unsigned 32-bit machine integers (`u32`) are `Nat`; wrapping subtraction
  is written explicitly modulo `2^32`;
* signed 32-bit native codes (`c_int`) are `Int`;
* 32-bit floats are only ever copied bit-for-bit by this code, never
  computed with, so they are modelled by their 32-bit pattern (`Nat`);
* raw pointers are modelled by `Nat`, with `0` for the null pointer, and
  optional function pointers by `Option Nat`;
* the Rust `unimplemented!()` panic in `From<llama_pooling_type> for
  PoolingType` is modelled by returning `Option.none`, and the functions
  whose evaluation would reach it become `Option`-valued.
-/

namespace LlamaParams

/-- Bit pattern of a 32-bit float; the code only copies these values. -/
abbrev F32 := Nat

/-- Null raw pointer, as produced by `std::ptr::null_mut()`. -/
def null_mut : Nat := 0

/-- Modelled from the spec: the native cache-element-type enumeration
`ggml_type` from the `llama_cpp_sys` bindings crate, which is not part of
the sources here; it is a C unsigned-integer enumeration, so it is
modelled as `Nat`, and the `as u32` / `as ggml_type` casts in the code are
the identity. -/
abbrev ggml_type := Nat

/-- Modelled from the spec: the native pooling-strategy integer type
`llama_pooling_type` from the `llama_cpp_sys` bindings crate (a C `int`). -/
abbrev llama_pooling_type := Int

/-- Modelled from the spec: the native code for unspecified pooling. The
spec fixes exactly four defined codes (unspecified, none, mean,
class-token); the bindings crate carrying their numeric values is not part
of the sources here, so the native library values -1, 0, 1, 2 are used;
only their pairwise distinctness matters below. -/
def llama_pooling_type_LLAMA_POOLING_TYPE_UNSPECIFIED : llama_pooling_type := -1

/-- Modelled from the spec: the native code for no pooling. -/
def llama_pooling_type_LLAMA_POOLING_TYPE_NONE : llama_pooling_type := 0

/-- Modelled from the spec: the native code for mean pooling. -/
def llama_pooling_type_LLAMA_POOLING_TYPE_MEAN : llama_pooling_type := 1

/-- Modelled from the spec: the native code for class-token pooling. -/
def llama_pooling_type_LLAMA_POOLING_TYPE_CLS : llama_pooling_type := 2

/-- The `PoolingType` enum of `params.rs`: whether to pool (sum) embedding
results by sequence id. -/
inductive PoolingType where
  | Unspecified : PoolingType
  | None : PoolingType
  | Mean : PoolingType
  | Cls : PoolingType
deriving DecidableEq

/-- The `From<PoolingType> for llama_pooling_type` impl of `params.rs`. -/
def PoolingType.toNative : PoolingType → llama_pooling_type
  | PoolingType.Unspecified => llama_pooling_type_LLAMA_POOLING_TYPE_UNSPECIFIED
  | PoolingType.None => llama_pooling_type_LLAMA_POOLING_TYPE_NONE
  | PoolingType.Mean => llama_pooling_type_LLAMA_POOLING_TYPE_MEAN
  | PoolingType.Cls => llama_pooling_type_LLAMA_POOLING_TYPE_CLS

/-- The `From<llama_pooling_type> for PoolingType` impl of `params.rs`:
matches the four named constants in source order; the catch-all arm is
`unimplemented!()`, a panic, modelled as `Option.none`. -/
def PoolingType.fromNative (value : llama_pooling_type) : Option PoolingType :=
  if value = llama_pooling_type_LLAMA_POOLING_TYPE_UNSPECIFIED then
    Option.some PoolingType.Unspecified
  else if value = llama_pooling_type_LLAMA_POOLING_TYPE_NONE then
    Option.some PoolingType.None
  else if value = llama_pooling_type_LLAMA_POOLING_TYPE_MEAN then
    Option.some PoolingType.Mean
  else if value = llama_pooling_type_LLAMA_POOLING_TYPE_CLS then
    Option.some PoolingType.Cls
  else
    Option.none

/-- Modelled from the spec: the native `llama_context_params` block of the
`llama_cpp_sys` bindings crate, with exactly the fields read and written
by `params.rs` (§3/§4.3 of the spec: the configurable fields plus the two
callback-pointer pairs and the deprecated all-logits flag). -/
structure llama_context_params where
  seed : Nat
  n_ctx : Nat
  n_batch : Nat
  n_threads : Nat
  n_threads_batch : Nat
  rope_scaling_type : Int
  rope_freq_base : F32
  rope_freq_scale : F32
  yarn_ext_factor : F32
  yarn_attn_factor : F32
  yarn_beta_fast : F32
  yarn_beta_slow : F32
  yarn_orig_ctx : Nat
  defrag_thold : F32
  cb_eval : Option Nat
  cb_eval_user_data : Nat
  type_k : ggml_type
  type_v : ggml_type
  logits_all : Bool
  embedding : Bool
  offload_kqv : Bool
  pooling_type : llama_pooling_type
  abort_callback : Option Nat
  abort_callback_data : Nat
deriving DecidableEq

/-- The `SessionParams` struct of `params.rs`. -/
structure SessionParams where
  seed : Nat
  n_ctx : Nat
  n_batch : Nat
  n_threads : Nat
  n_threads_batch : Nat
  rope_scaling_type : Int
  rope_freq_base : F32
  rope_freq_scale : F32
  yarn_ext_factor : F32
  yarn_attn_factor : F32
  yarn_beta_fast : F32
  yarn_beta_slow : F32
  yarn_orig_ctx : Nat
  type_k : Nat
  type_v : Nat
  embedding : Bool
  offload_kqv : Bool
  pooling : PoolingType
  defrag_threshold : F32
deriving DecidableEq

/-- The thread count computed by `SessionParams::default()`:
`num_cpus::get_physical() as u32 - 1`, i.e. the physical core count
truncated to `u32` followed by wrapping `u32` subtraction of 1. -/
def threadsOf (physicalCores : Nat) : Nat :=
  (physicalCores % 2 ^ 32 + (2 ^ 32 - 1)) % 2 ^ 32

/-- The `Default for SessionParams` impl of `params.rs`, with the two
ambient reads passed explicitly: `c_defaults` is the block returned by
`llama_context_default_params()` and `physicalCores` the value of
`num_cpus::get_physical()`. The `.into()` on the native pooling code can
panic (for a code outside the four defined ones), so the result is an
`Option`. -/
def SessionParams.default (c_defaults : llama_context_params)
    (physicalCores : Nat) : Option SessionParams :=
  match PoolingType.fromNative c_defaults.pooling_type with
  | Option.none => Option.none
  | Option.some pooling =>
    let threads := threadsOf physicalCores
    Option.some
      { seed := c_defaults.seed
        n_ctx := c_defaults.n_ctx
        n_batch := c_defaults.n_batch
        n_threads := threads
        n_threads_batch := threads
        rope_scaling_type := c_defaults.rope_scaling_type
        rope_freq_base := c_defaults.rope_freq_base
        rope_freq_scale := c_defaults.rope_freq_scale
        yarn_ext_factor := c_defaults.yarn_ext_factor
        yarn_attn_factor := c_defaults.yarn_attn_factor
        yarn_beta_fast := c_defaults.yarn_beta_fast
        yarn_beta_slow := c_defaults.yarn_beta_slow
        yarn_orig_ctx := c_defaults.yarn_orig_ctx
        type_k := c_defaults.type_k
        type_v := c_defaults.type_v
        embedding := c_defaults.embedding
        offload_kqv := c_defaults.offload_kqv
        pooling := pooling
        defrag_threshold := c_defaults.defrag_thold }

/-- The `From<SessionParams> for llama_context_params` impl of
`params.rs`. -/
def llama_context_params.fromSessionParams (value : SessionParams) :
    llama_context_params :=
  { seed := value.seed
    n_ctx := value.n_ctx
    n_batch := value.n_batch
    n_threads := value.n_threads
    n_threads_batch := value.n_threads_batch
    rope_scaling_type := value.rope_scaling_type
    rope_freq_base := value.rope_freq_base
    rope_freq_scale := value.rope_freq_scale
    yarn_ext_factor := value.yarn_ext_factor
    yarn_attn_factor := value.yarn_attn_factor
    yarn_beta_fast := value.yarn_beta_fast
    yarn_beta_slow := value.yarn_beta_slow
    yarn_orig_ctx := value.yarn_orig_ctx
    defrag_thold := value.defrag_threshold
    cb_eval := Option.none
    cb_eval_user_data := null_mut
    type_k := value.type_k
    type_v := value.type_v
    logits_all := false
    embedding := value.embedding
    offload_kqv := value.offload_kqv
    pooling_type := value.pooling.toNative
    abort_callback := Option.none
    abort_callback_data := null_mut }

/-- Concrete native default block used as a witness input; values mirror
the native library's compiled-in defaults, with floats as bit patterns. -/
def dExample : llama_context_params :=
  { seed := 4294967295
    n_ctx := 512
    n_batch := 2048
    n_threads := 4
    n_threads_batch := 4
    rope_scaling_type := -1
    rope_freq_base := 0
    rope_freq_scale := 0
    yarn_ext_factor := 3212836864
    yarn_attn_factor := 1065353216
    yarn_beta_fast := 1107296256
    yarn_beta_slow := 1065353216
    yarn_orig_ctx := 0
    defrag_thold := 3212836864
    cb_eval := Option.none
    cb_eval_user_data := 0
    type_k := 1
    type_v := 1
    logits_all := false
    embedding := false
    offload_kqv := true
    pooling_type := llama_pooling_type_LLAMA_POOLING_TYPE_UNSPECIFIED
    abort_callback := Option.none
    abort_callback_data := 0 }

/-- The value `SessionParams::default()` produces from `dExample` on a
4-core host. -/
def exampleDefault : SessionParams :=
  { seed := 4294967295
    n_ctx := 512
    n_batch := 2048
    n_threads := 3
    n_threads_batch := 3
    rope_scaling_type := -1
    rope_freq_base := 0
    rope_freq_scale := 0
    yarn_ext_factor := 3212836864
    yarn_attn_factor := 1065353216
    yarn_beta_fast := 1107296256
    yarn_beta_slow := 1065353216
    yarn_orig_ctx := 0
    type_k := 1
    type_v := 1
    embedding := false
    offload_kqv := true
    pooling := PoolingType.Unspecified
    defrag_threshold := 3212836864 }

/-- A fully concrete `SessionParams` value matching the conversion-fidelity
example of the spec: context 4096, batch 512, embedding and KQV offload on,
mean pooling; remaining fields arbitrary concrete values. -/
def exampleParams : SessionParams :=
  { seed := 1
    n_ctx := 4096
    n_batch := 512
    n_threads := 8
    n_threads_batch := 8
    rope_scaling_type := 0
    rope_freq_base := 0
    rope_freq_scale := 0
    yarn_ext_factor := 0
    yarn_attn_factor := 1065353216
    yarn_beta_fast := 1107296256
    yarn_beta_slow := 1065353216
    yarn_orig_ctx := 0
    type_k := 1
    type_v := 1
    embedding := true
    offload_kqv := true
    pooling := PoolingType.Mean
    defrag_threshold := 3212836864 }

/-- If the native-to-variant direction succeeds, the variant maps back to
the very code it came from. -/
theorem fromNative_toNative (c : llama_pooling_type) (v : PoolingType)
    (h : PoolingType.fromNative c = Option.some v) : v.toNative = c := by
  unfold PoolingType.fromNative at h
  split_ifs at h <;> simp only [Option.some.injEq] at h <;> subst h <;>
    simp_all [PoolingType.toNative]

/-- C2: the pooling adapter round-trips losslessly: every variant survives
variant → native code → variant, and each of the four defined native codes
survives code → variant → code. -/
theorem pooling_roundtrip :
    (∀ v : PoolingType, PoolingType.fromNative v.toNative = Option.some v) ∧
    ((PoolingType.fromNative llama_pooling_type_LLAMA_POOLING_TYPE_UNSPECIFIED).map
        PoolingType.toNative = Option.some llama_pooling_type_LLAMA_POOLING_TYPE_UNSPECIFIED ∧
      (PoolingType.fromNative llama_pooling_type_LLAMA_POOLING_TYPE_NONE).map
        PoolingType.toNative = Option.some llama_pooling_type_LLAMA_POOLING_TYPE_NONE ∧
      (PoolingType.fromNative llama_pooling_type_LLAMA_POOLING_TYPE_MEAN).map
        PoolingType.toNative = Option.some llama_pooling_type_LLAMA_POOLING_TYPE_MEAN ∧
      (PoolingType.fromNative llama_pooling_type_LLAMA_POOLING_TYPE_CLS).map
        PoolingType.toNative = Option.some llama_pooling_type_LLAMA_POOLING_TYPE_CLS) :=
  ⟨fun v => by cases v <;> decide, by decide⟩

/-- C3: converting a native pooling code outside the four defined codes
never returns a variant: it hits the `unimplemented!()` panic, modelled as
`Option.none`, and in particular never falls back to a default variant. -/
theorem fromNative_unknown_fatal (c : llama_pooling_type)
    (h : c ≠ llama_pooling_type_LLAMA_POOLING_TYPE_UNSPECIFIED ∧
      c ≠ llama_pooling_type_LLAMA_POOLING_TYPE_NONE ∧
      c ≠ llama_pooling_type_LLAMA_POOLING_TYPE_MEAN ∧
      c ≠ llama_pooling_type_LLAMA_POOLING_TYPE_CLS) :
    PoolingType.fromNative c = Option.none := by
  obtain ⟨h1, h2, h3, h4⟩ := h
  simp [PoolingType.fromNative, h1, h2, h3, h4]

/-- Witness for C3 at the spec's example code 99. -/
theorem fromNative_unknown_fatal_witness :
    ((99 : llama_pooling_type) ≠ llama_pooling_type_LLAMA_POOLING_TYPE_UNSPECIFIED ∧
      (99 : llama_pooling_type) ≠ llama_pooling_type_LLAMA_POOLING_TYPE_NONE ∧
      (99 : llama_pooling_type) ≠ llama_pooling_type_LLAMA_POOLING_TYPE_MEAN ∧
      (99 : llama_pooling_type) ≠ llama_pooling_type_LLAMA_POOLING_TYPE_CLS) ∧
    PoolingType.fromNative 99 = Option.none :=
  ⟨by decide, fromNative_unknown_fatal 99 (by decide)⟩

/-- C1 (evaluation at the failing input): on a host reporting exactly 1
physical core, `SessionParams::default()` sets both `n_threads` and
`n_threads_batch` to `1 - 1 = 0`, not the clamped value 1 the spec
requires. -/
theorem default_single_core_threads_zero :
    (SessionParams.default dExample 1).map SessionParams.n_threads = Option.some 0 ∧
    (SessionParams.default dExample 1).map SessionParams.n_threads_batch =
      Option.some 0 := by
  decide

/-- C4: for every `SessionParams` value, conversion to the native block
writes `cb_eval` as absent, `cb_eval_user_data` as null, `abort_callback`
as absent, `abort_callback_data` as null, and `logits_all` as false,
whatever the input fields are. -/
theorem conversion_fixed_fields (p : SessionParams) :
    (llama_context_params.fromSessionParams p).cb_eval = Option.none ∧
    (llama_context_params.fromSessionParams p).cb_eval_user_data = null_mut ∧
    (llama_context_params.fromSessionParams p).abort_callback = Option.none ∧
    (llama_context_params.fromSessionParams p).abort_callback_data = null_mut ∧
    (llama_context_params.fromSessionParams p).logits_all = false :=
  ⟨rfl, rfl, rfl, rfl, rfl⟩

/-- C5: conversion copies every configurable field to the identically
named native field (the cache-dtype codes and the pooling variant going
through their respective encodings), and on the spec's concrete example
input the native block holds 4096, 512, true, true and the native mean
pooling code. -/
theorem conversion_fidelity :
    (∀ p : SessionParams,
      (llama_context_params.fromSessionParams p).seed = p.seed ∧
      (llama_context_params.fromSessionParams p).n_ctx = p.n_ctx ∧
      (llama_context_params.fromSessionParams p).n_batch = p.n_batch ∧
      (llama_context_params.fromSessionParams p).n_threads = p.n_threads ∧
      (llama_context_params.fromSessionParams p).n_threads_batch = p.n_threads_batch ∧
      (llama_context_params.fromSessionParams p).rope_scaling_type = p.rope_scaling_type ∧
      (llama_context_params.fromSessionParams p).rope_freq_base = p.rope_freq_base ∧
      (llama_context_params.fromSessionParams p).rope_freq_scale = p.rope_freq_scale ∧
      (llama_context_params.fromSessionParams p).yarn_ext_factor = p.yarn_ext_factor ∧
      (llama_context_params.fromSessionParams p).yarn_attn_factor = p.yarn_attn_factor ∧
      (llama_context_params.fromSessionParams p).yarn_beta_fast = p.yarn_beta_fast ∧
      (llama_context_params.fromSessionParams p).yarn_beta_slow = p.yarn_beta_slow ∧
      (llama_context_params.fromSessionParams p).yarn_orig_ctx = p.yarn_orig_ctx ∧
      (llama_context_params.fromSessionParams p).type_k = p.type_k ∧
      (llama_context_params.fromSessionParams p).type_v = p.type_v ∧
      (llama_context_params.fromSessionParams p).embedding = p.embedding ∧
      (llama_context_params.fromSessionParams p).offload_kqv = p.offload_kqv ∧
      (llama_context_params.fromSessionParams p).defrag_thold = p.defrag_threshold ∧
      (llama_context_params.fromSessionParams p).pooling_type = p.pooling.toNative) ∧
    ((llama_context_params.fromSessionParams exampleParams).n_ctx = 4096 ∧
      (llama_context_params.fromSessionParams exampleParams).n_batch = 512 ∧
      (llama_context_params.fromSessionParams exampleParams).embedding = true ∧
      (llama_context_params.fromSessionParams exampleParams).offload_kqv = true ∧
      (llama_context_params.fromSessionParams exampleParams).pooling_type =
        llama_pooling_type_LLAMA_POOLING_TYPE_MEAN) :=
  ⟨fun _ => ⟨rfl, rfl, rfl, rfl, rfl, rfl, rfl, rfl, rfl, rfl, rfl, rfl, rfl,
    rfl, rfl, rfl, rfl, rfl, rfl⟩, by decide⟩

/-- C6: default construction is deterministic: with the same native
default block and the same physical-core count, any two results of
`SessionParams::default()` are equal (field-wise, including `seed`); no
field is re-randomized. -/
theorem default_deterministic (d : llama_context_params) (cores : Nat)
    (p q : SessionParams) (h1 : SessionParams.default d cores = Option.some p)
    (h2 : SessionParams.default d cores = Option.some q) : p = q := by
  rw [h1, Option.some.injEq] at h2
  exact h2

/-- Witness for C6: two evaluations of the default on the concrete inputs
agree. -/
theorem default_deterministic_witness :
    SessionParams.default dExample 4 = Option.some exampleDefault ∧
    exampleDefault = exampleDefault :=
  ⟨by decide,
    default_deterministic dExample 4 exampleDefault exampleDefault (by decide)
      (by decide)⟩

/-- C7: whenever `SessionParams::default()` returns, every field of the
result is the copy of the corresponding field of the native default block
(the cache-dtype codes copied as unsigned 32-bit codes), except the two
thread fields, which both hold the host-derived value, and `pooling`,
which holds the result of the native-code-to-variant adapter. -/
theorem default_populates (d : llama_context_params) (cores : Nat)
    (p : SessionParams) (h : SessionParams.default d cores = Option.some p) :
    p.seed = d.seed ∧ p.n_ctx = d.n_ctx ∧ p.n_batch = d.n_batch ∧
    p.n_threads = threadsOf cores ∧ p.n_threads_batch = threadsOf cores ∧
    p.rope_scaling_type = d.rope_scaling_type ∧
    p.rope_freq_base = d.rope_freq_base ∧
    p.rope_freq_scale = d.rope_freq_scale ∧
    p.yarn_ext_factor = d.yarn_ext_factor ∧
    p.yarn_attn_factor = d.yarn_attn_factor ∧
    p.yarn_beta_fast = d.yarn_beta_fast ∧
    p.yarn_beta_slow = d.yarn_beta_slow ∧
    p.yarn_orig_ctx = d.yarn_orig_ctx ∧
    p.type_k = d.type_k ∧ p.type_v = d.type_v ∧
    p.embedding = d.embedding ∧ p.offload_kqv = d.offload_kqv ∧
    Option.some p.pooling = PoolingType.fromNative d.pooling_type ∧
    p.defrag_threshold = d.defrag_thold := by
  unfold SessionParams.default at h
  rcases hf : PoolingType.fromNative d.pooling_type with _ | v <;> rw [hf] at h
  · simp at h
  · simp only [Option.some.injEq] at h
    subst h
    simp [hf]

/-- Witness for C7 at the concrete native block and a 4-core host. -/
theorem default_populates_witness :
    SessionParams.default dExample 4 = Option.some exampleDefault ∧
    exampleDefault.n_threads = threadsOf 4 ∧
    exampleDefault.n_threads_batch = threadsOf 4 :=
  ⟨by decide, (default_populates dExample 4 exampleDefault (by decide)).2.2.2.1,
    (default_populates dExample 4 exampleDefault (by decide)).2.2.2.2.1⟩

/-- C8: conversion does not depend on when a field was set: overwriting
`defrag_threshold` of a default-constructed value with `t` and converting
gives the same native block as converting any value that had
`defrag_threshold = t` from the start with all other fields equal. -/
theorem convert_after_overwrite (d : llama_context_params) (cores : Nat)
    (t : F32) (p q : SessionParams)
    (hp : SessionParams.default d cores = Option.some p)
    (hq : q.seed = p.seed ∧ q.n_ctx = p.n_ctx ∧ q.n_batch = p.n_batch ∧
      q.n_threads = p.n_threads ∧ q.n_threads_batch = p.n_threads_batch ∧
      q.rope_scaling_type = p.rope_scaling_type ∧
      q.rope_freq_base = p.rope_freq_base ∧
      q.rope_freq_scale = p.rope_freq_scale ∧
      q.yarn_ext_factor = p.yarn_ext_factor ∧
      q.yarn_attn_factor = p.yarn_attn_factor ∧
      q.yarn_beta_fast = p.yarn_beta_fast ∧
      q.yarn_beta_slow = p.yarn_beta_slow ∧
      q.yarn_orig_ctx = p.yarn_orig_ctx ∧
      q.type_k = p.type_k ∧ q.type_v = p.type_v ∧
      q.embedding = p.embedding ∧ q.offload_kqv = p.offload_kqv ∧
      q.pooling = p.pooling ∧ q.defrag_threshold = t) :
    llama_context_params.fromSessionParams { p with defrag_threshold := t } =
      llama_context_params.fromSessionParams q := by
  obtain ⟨e1, e2, e3, e4, e5, e6, e7, e8, e9, e10, e11, e12, e13, e14, e15,
    e16, e17, e18, e19⟩ := hq
  cases p
  cases q
  simp_all [llama_context_params.fromSessionParams]

/-- Witness for C8 at the concrete default, overwriting the threshold with
the bit pattern 7. -/
theorem convert_after_overwrite_witness :
    SessionParams.default dExample 4 = Option.some exampleDefault ∧
    llama_context_params.fromSessionParams
        { exampleDefault with defrag_threshold := 7 } =
      llama_context_params.fromSessionParams
        { exampleDefault with defrag_threshold := 7 } :=
  ⟨by decide,
    convert_after_overwrite dExample 4 7 exampleDefault
      { exampleDefault with defrag_threshold := 7 } (by decide) (by decide)⟩

/-- C9: default construction has no failure path as long as the native
default block carries one of the four defined pooling codes: the result is
always a fully populated value. -/
theorem default_never_fails (d : llama_context_params) (cores : Nat)
    (h : d.pooling_type = llama_pooling_type_LLAMA_POOLING_TYPE_UNSPECIFIED ∨
      d.pooling_type = llama_pooling_type_LLAMA_POOLING_TYPE_NONE ∨
      d.pooling_type = llama_pooling_type_LLAMA_POOLING_TYPE_MEAN ∨
      d.pooling_type = llama_pooling_type_LLAMA_POOLING_TYPE_CLS) :
    (SessionParams.default d cores).isSome = true := by
  unfold SessionParams.default
  rcases h with h | h | h | h <;> rw [h] <;>
    simp [PoolingType.fromNative, llama_pooling_type_LLAMA_POOLING_TYPE_UNSPECIFIED,
      llama_pooling_type_LLAMA_POOLING_TYPE_NONE,
      llama_pooling_type_LLAMA_POOLING_TYPE_MEAN,
      llama_pooling_type_LLAMA_POOLING_TYPE_CLS]

/-- Witness for C9, on a single-core host (construction still succeeds
there; only the thread value is wrong, see C1). -/
theorem default_never_fails_witness :
    (dExample.pooling_type = llama_pooling_type_LLAMA_POOLING_TYPE_UNSPECIFIED ∨
      dExample.pooling_type = llama_pooling_type_LLAMA_POOLING_TYPE_NONE ∨
      dExample.pooling_type = llama_pooling_type_LLAMA_POOLING_TYPE_MEAN ∨
      dExample.pooling_type = llama_pooling_type_LLAMA_POOLING_TYPE_CLS) ∧
    (SessionParams.default dExample 1).isSome = true :=
  ⟨Or.inl (by decide), default_never_fails dExample 1 (Or.inl (by decide))⟩

/-- C10: converting the default back to a native block reproduces the
native default block except for the two thread fields (host-derived), the
two callback-pointer pairs (absent/null) and the deprecated `logits_all`
flag (false); in particular the pooling code and the cache-dtype codes
survive the round trip unchanged. -/
theorem default_convert_preserves (d : llama_context_params) (cores : Nat)
    (p : SessionParams) (h : SessionParams.default d cores = Option.some p) :
    llama_context_params.fromSessionParams p =
      { d with
        n_threads := threadsOf cores
        n_threads_batch := threadsOf cores
        cb_eval := Option.none
        cb_eval_user_data := null_mut
        abort_callback := Option.none
        abort_callback_data := null_mut
        logits_all := false } := by
  unfold SessionParams.default at h
  rcases hf : PoolingType.fromNative d.pooling_type with _ | v <;> rw [hf] at h
  · simp at h
  · simp only [Option.some.injEq] at h
    subst h
    have ht : v.toNative = d.pooling_type := fromNative_toNative d.pooling_type v hf
    simp [llama_context_params.fromSessionParams, ht]

/-- Witness for C10 at the concrete native block and a 4-core host. -/
theorem default_convert_preserves_witness :
    SessionParams.default dExample 4 = Option.some exampleDefault ∧
    llama_context_params.fromSessionParams exampleDefault =
      { dExample with
        n_threads := threadsOf 4
        n_threads_batch := threadsOf 4
        cb_eval := Option.none
        cb_eval_user_data := null_mut
        abort_callback := Option.none
        abort_callback_data := null_mut
        logits_all := false } :=
  ⟨by decide, default_convert_preserves dExample 4 exampleDefault (by decide)⟩

end LlamaParams
